import Mathlib

/-
Shallow embedding of the voice-assistant conversation controller of
src/src/components/MedicationReminder.tsx (the embedded VoiceAssistant
component, lines ~725-1615) and of the medications hook useMedications
(src/unnamed/part_000), together with theorems settling the frozen claims.

Strings are manipulated through their character lists so that every
definition is executable and every concrete statement can be settled by
kernel evaluation.  JavaScript string primitives are mirrored:
toLowerCase (ASCII range, sufficient for the fixed keyword lists, which
are ASCII or Malayalam and Malayalam has no case), trim, includes
(substring containment), and truthiness (non-emptiness).
-/

namespace EdenVoice

/-- Mirrors JS toLowerCase on one character, restricted to the ASCII
range actually exercised by the fixed keyword/phrase lists. -/
def jsLowerChar (c : Char) : Char :=
  if 65 ≤ c.toNat ∧ c.toNat ≤ 90 then Char.ofNat (c.toNat + 32) else c

/-- toLowerCase over a character list. -/
def jsLowerList (l : List Char) : List Char := l.map jsLowerChar

/-- Whitespace characters stripped by trim. -/
def isSpaceChar (c : Char) : Bool :=
  c = ' ' || c = '\t' || c = '\n' || c = '\r'

/-- Mirrors JS String.prototype.trim on a character list. -/
def trimList (l : List Char) : List Char :=
  ((l.dropWhile isSpaceChar).reverse.dropWhile isSpaceChar).reverse

/-- Does the needle occur as a leading block of the haystack? -/
def leadsWith : List Char → List Char → Bool
  | [], _ => true
  | _ :: _, [] => false
  | a :: as, b :: bs => a == b && leadsWith as bs

/-- Mirrors JS String.prototype.includes: does the needle occur
contiguously anywhere in the haystack? -/
def occursIn (needle : List Char) : List Char → Bool
  | [] => leadsWith needle []
  | c :: cs => leadsWith needle (c :: cs) || occursIn needle cs

/-- The two response languages of the assistant. -/
inductive Lang
  | en
  | ml
  deriving Repr, DecidableEq

/-- Activation phrase list from recognition.onresult (line 787). -/
def activationPhrases : List String :=
  ["hey google", "hello", "hi there", "നമസ്ക്കാരം", "ഹലോ"]

/-- Greeting text chosen by currentLanguage (lines 809-811). -/
def greetingText : Lang → String
  | .ml => "ഹലോ! ഞാൻ കേൾക്കുന്നു. എനിക്ക് നിങ്ങളെ എങ്ങനെ സഹായിക്കാം?"
  | .en => "Hi! I\x27m listening. How can I help you today?"

/-- Farewell text spoken by endConversation (lines 952-954). -/
def farewellText : Lang → String
  | .ml => "ശരി, ഞാൻ ഇവിടെയുണ്ട് നിങ്ങൾക്ക് എന്തെങ്കിലും വേണമെങ്കിൽ വിളിക്കുക."
  | .en => "Okay, I\x27m here if you need anything else. Just say \"Hey Google\" to talk again."

/-- Per-language emergency keyword lists of analyzeUserInput (lines 999-1001). -/
def emergencyKeywords : Lang → List String
  | .ml => ["അസുഖം", "വേദന", "നെഞ്ചുവേദന", "തലവേദന", "ചക്കരം", "സഹായം", "അപകടം"]
  | .en => ["emergency", "help", "chest pain", "heart attack", "stroke", "fall",
            "cant breathe", "severe pain"]

/-- Per-language health-concern keyword lists of analyzeUserInput (lines 1003-1005). -/
def healthKeywords : Lang → List String
  | .ml => ["മരുന്ന്", "ആരോഗ്യം", "ബുദ്ധിമുട്ട്", "സുഖമില്ല", "ക്ഷീണം"]
  | .en => ["medication", "medicine", "not feeling well", "sick", "tired", "dizzy",
            "nauseous"]

/-- Fixed emergency response text of handleEmergencyResponse (lines 1023-1025). -/
def emergencyResponseText : Lang → String
  | .ml => "ഞാൻ മനസ്സിലാക്കി, ഇത് ഗുരുതരമായ കാര്യമാണ്. ദയവായി ശാന്തമായിരിക്കുക. ഞാൻ ഉടനെ നിങ്ങളുടെ കുടുംബത്തെയും ഡോക്ടറെയും വിളിക്കുന്നു. നിങ്ങൾ സുരക്ഷിതമായ സ്ഥലത്ത് ഇരിക്കുക."
  | .en => "I understand this is serious. Please try to stay calm. I\x27m immediately notifying your family and doctor. Please sit in a safe place and breathe slowly."

/-- Fallback text of handleHealthConcernResponse on a generation error (lines 1139-1141). -/
def healthFallbackText : Lang → String
  | .ml => "ക്ഷമിക്കണം, എനിക്ക് പ്രശ്നമുണ്ട്. നിങ്ങളുടെ ആരോഗ്യത്തെക്കുറിച്ച് വിഷമിക്കുന്നു. ദയവായി ഡോക്ടറെ വിളിക്കുക."
  | .en => "Sorry, I\x27m having trouble. I\x27m concerned about your health. Please call your doctor."

/-- Fallback text of handleNormalConversation on a generation error (lines 1254-1256). -/
def normalFallbackText : Lang → String
  | .ml => "ക്ഷമിക്കണം, എനിക്ക് കേൾക്കാൻ കഴിഞ്ഞില്ല. വീണ്ടും പറയാമോ?"
  | .en => "Sorry, I didn\x27t catch that. Could you say that again?"

/-- Result record of analyzeUserInput (lines 1012-1017); the keywords
field of the source is its keyword-list echo and carries no control
flow, so it is kept as the same echo. -/
structure Analysis where
  isEmergency : Bool
  isHealthConcern : Bool
  confidence : ℚ
  keywords : List String
  deriving Repr, DecidableEq

/-- analyzeUserInput (lines 998-1019): case-insensitive substring
membership of the transcript against the two fixed per-language keyword
lists; confidence is the constant 0.8. -/
def analyzeUserInput (text : String) (language : Lang) : Analysis :=
  let lowText := jsLowerList text.data
  let isEmergency :=
    (emergencyKeywords language).any fun k => occursIn (jsLowerList k.data) lowText
  let isHealthConcern :=
    (healthKeywords language).any fun k => occursIn (jsLowerList k.data) lowText
  { isEmergency := isEmergency
    isHealthConcern := isHealthConcern
    confidence := 0.8
    keywords :=
      if isEmergency then emergencyKeywords language
      else if isHealthConcern then healthKeywords language
      else [] }

/-- detectLanguage (lines 961-964): Malayalam iff some character lies in
the Malayalam Unicode block U+0D00-U+0D7F. -/
def detectLanguage (text : String) : Lang :=
  if text.data.any (fun c => 0xD00 ≤ c.toNat && c.toNat ≤ 0xD7F) then .ml else .en

/-- The three dispatch branches of handleConversationInput (lines 983-991). -/
inductive ConvBranch
  | emergency
  | health
  | normal
  deriving Repr, DecidableEq

/-- The if / else-if / else dispatch of handleConversationInput:
emergency is checked first, so it takes priority over health-concern. -/
def chooseBranch (a : Analysis) : ConvBranch :=
  if a.isEmergency then .emergency
  else if a.isHealthConcern then .health
  else .normal

/-
Controller state.  The component state variables, refs and channel
statuses of the VoiceAssistant component, made explicit (spec §9 note:
global mutable flags and timer refs become fields of one state struct).
inputActive / outputActive are the actual SpeechRecognition session /
speechSynthesis activity; isListening is the React state variable of the
same name.  Timers: the silence timer keeps its setTimeout handle as an
identifier (fresh ids from nextTimerId) so that clearTimeout and
single-shot firing are modelled exactly; the auto-restart and settle
timers are only armed/cleared, a pending flag suffices for them.
pendingFinish records whether the current utterance was given an
onFinished callback; every callback actually passed in the source is
the same "restart recognition after a 1 s settle delay" closure, whose
invocation is modelled by arming the settle timer.  farewellCount is an
observer incremented exactly where endConversation requests the
farewell utterance.  synthAvail / genAvail / recAvail model the
availability of speechSynthesis, the Gemini client, and the
SpeechRecognition object.
-/
structure CState where
  conversationActive : Bool
  isListening : Bool
  inputActive : Bool
  outputActive : Bool
  manuallyControlled : Bool
  isProcessing : Bool
  synthAvail : Bool
  genAvail : Bool
  recAvail : Bool
  currentTranscript : String
  currentLanguage : Lang
  silenceTimer : Option Nat
  nextTimerId : Nat
  restartPending : Bool
  settlePending : Bool
  pendingFinish : Bool
  messages : List String
  spoken : List String
  farewellCount : Nat
  deriving Repr, DecidableEq

/-- Primitive effects emitted by recognition.onresult, in program
order; used to state intra-handler ordering properties. -/
inductive Act
  | stopRec
  | startRec
  | speak (text : String)
  | setConvActive (b : Bool)
  | setListening (b : Bool)
  | clearSilence
  | armSilence
  | addMsg (text : String)
  | saveReport
  | notifyFam
  deriving Repr, DecidableEq

/-- recognition.stop() (wrapped in try/catch in the source): the session
stops; stopping an inactive session throws and is swallowed. -/
def recStop (s : CState) : CState := { s with inputActive := false }

/-- recognition.start() together with its synchronous onstart handler
(lines 753-758): sets isListening and clears the transcript; starting an
already-active session throws and is swallowed. -/
def recStart (s : CState) : CState :=
  if s.inputActive then s
  else { s with inputActive := true, isListening := true, currentTranscript := "" }

/-- Invocation of the onFinished callback passed to speakResponse by
every conversation call site: setTimeout(1000) arming the settle-delay
restart (e.g. lines 821-833). -/
def runFinish (s : CState) : CState := { s with settlePending := true }

/-- speakResponse (lines 1343-1374).  With speechSynthesis available:
cancel any current utterance, start speaking, and register onend/onerror
handlers that invoke onFinished (cb records whether one was passed).
Without speechSynthesis: invoke onFinished immediately. -/
def doSpeak (s : CState) (text : String) (cb : Bool) : CState :=
  if s.synthAvail then
    { s with outputActive := true, pendingFinish := cb, spoken := s.spoken ++ [text] }
  else if cb then runFinish s else s

/-- endConversation (lines 946-958): clear conversationActive, clear the
silence timer, speak the farewell with no completion callback. -/
def endConversation (s : CState) : CState :=
  let s1 := { s with conversationActive := false, silenceTimer := none }
  let s2 := doSpeak s1 (farewellText s1.currentLanguage) false
  { s2 with farewellCount := s2.farewellCount + 1 }

/-- handleConversationInput (lines 966-996) with its three response
handlers, flattened to the synchronous net effect in event order.
gen is the external generative endpoint's outcome for this turn:
some r is reply text r, none is a thrown generation error (the fixed
fallback is then spoken); when the Gemini client is unavailable the
health/normal branches return after a toast without speaking.
isProcessing is set and cleared inside the same handler, so its net
effect is nil; the entry guard is kept. -/
def handleConvInput (s : CState) (t : String) (gen : Option String) :
    CState × List Act :=
  if s.isProcessing then (s, [])
  else
    let lang := detectLanguage t
    let s1 := { s with currentLanguage := lang, messages := s.messages ++ [t] }
    let a := analyzeUserInput t lang
    match chooseBranch a with
    | .emergency =>
        let resp := emergencyResponseText lang
        let s2 := { s1 with messages := s1.messages ++ [resp] }
        (doSpeak s2 resp true,
         [Act.addMsg t, Act.addMsg resp, Act.saveReport, Act.notifyFam, Act.speak resp])
    | .health =>
        if s1.genAvail then
          match gen with
          | some r =>
              let s2 := { s1 with messages := s1.messages ++ [r] }
              (doSpeak s2 r true,
               [Act.addMsg t, Act.addMsg r, Act.saveReport, Act.speak r])
          | none =>
              let fb := healthFallbackText lang
              let s2 := { s1 with messages := s1.messages ++ [fb] }
              (doSpeak s2 fb true, [Act.addMsg t, Act.addMsg fb, Act.speak fb])
        else (s1, [Act.addMsg t])
    | .normal =>
        if s1.genAvail then
          match gen with
          | some r =>
              let s2 := { s1 with messages := s1.messages ++ [r] }
              (doSpeak s2 r true,
               [Act.addMsg t, Act.addMsg r, Act.saveReport, Act.speak r])
          | none =>
              let fb := normalFallbackText lang
              let s2 := { s1 with messages := s1.messages ++ [fb] }
              (doSpeak s2 fb true, [Act.addMsg t, Act.addMsg fb, Act.speak fb])
        else (s1, [Act.addMsg t])

/-- recognition.onresult (lines 760-857).  interim and final are the
joined interim and final transcripts of the event; gen is the external
generation outcome used if this turn reaches a generating branch.
Returns the successor state and the handler's effect list. -/
def onresult (s : CState) (interim final : String) (gen : Option String) :
    CState × List Act :=
  let s0 := { s with currentTranscript := interim }
  let cleared := final ≠ "" && s0.silenceTimer.isSome
  let s1 := if cleared then { s0 with silenceTimer := none } else s0
  let a1 := if cleared then [Act.clearSilence] else []
  if ¬s1.conversationActive ∧ trimList final.data ≠ [] then
    let lower := trimList (jsLowerList final.data)
    if lower.length < 3 then (s1, a1)
    else if activationPhrases.any (fun p => occursIn p.data lower) then
      let s2 := recStop s1
      let s3 := { s2 with conversationActive := true, isListening := false }
      let g := greetingText s3.currentLanguage
      let s4 := { s3 with messages := s3.messages ++ [g] }
      let s5 := doSpeak s4 g true
      (s5, a1 ++ [Act.stopRec, Act.setConvActive true, Act.setListening false,
                  Act.addMsg g, Act.speak g])
    else (s1, a1)
  else if s1.conversationActive then
    if trimList final.data ≠ [] then
      let s2 := recStop s1
      let s3 := { s2 with isListening := false }
      let tt := String.mk (trimList final.data)
      let pr := handleConvInput s3 tt gen
      let s4 := { pr.1 with currentTranscript := "" }
      let s5 := { s4 with silenceTimer := some s4.nextTimerId,
                          nextTimerId := s4.nextTimerId + 1 }
      (s5, a1 ++ [Act.stopRec, Act.setListening false] ++ pr.2 ++ [Act.armSilence])
    else (s1, a1)
  else (s1, a1)

/-- recognition.onend (lines 880-918): reset listening state and the
transcript, clear any pending auto-restart timer, return early during a
conversation, otherwise arm the 2 s auto-restart timer unless manually
controlled or processing. -/
def recEndStep (s : CState) : CState :=
  let s1 := { s with isListening := false, currentTranscript := "",
                     inputActive := false, restartPending := false }
  if s1.conversationActive then s1
  else if ¬s1.manuallyControlled ∧ ¬s1.isProcessing then
    { s1 with restartPending := true }
  else s1

/-- The auto-restart timer body (lines 903-913): restart recognition for
passive listening if conditions still hold. -/
def restartFireStep (s : CState) : CState :=
  if s.restartPending then
    let s1 := { s with restartPending := false }
    if s1.recAvail ∧ ¬s1.isListening ∧ ¬s1.manuallyControlled ∧ ¬s1.isProcessing
        ∧ ¬s1.conversationActive then
      recStart s1
    else s1
  else s

/-- A terminal speech-synthesis event: utterance.onend (lines 1353-1358)
or utterance.onerror (lines 1360-1365); both invoke onFinished when one
was passed. -/
def speechTermStep (s : CState) : CState :=
  if s.outputActive then
    let s1 := { s with outputActive := false }
    if s1.pendingFinish then runFinish { s1 with pendingFinish := false } else s1
  else s

/-- The settle-delay timer body (e.g. lines 822-832): one second after an
utterance's completion callback, restart recognition if the conversation
is still active. -/
def settleFireStep (s : CState) : CState :=
  if s.settlePending then
    let s1 := { s with settlePending := false }
    if s1.conversationActive ∧ s1.recAvail then recStart s1 else s1
  else s

/-- The silence timer body (lines 852-856): a setTimeout with handle k
fires only if it is still the current silence timer, then runs
endConversation. -/
def silenceFireStep (s : CState) (k : Nat) : CState :=
  if s.silenceTimer = some k then endConversation s else s

/-- startListening (lines 1376-1394). -/
def startListening (s : CState) : CState :=
  if s.recAvail ∧ ¬s.isListening then
    recStart { s with restartPending := false, manuallyControlled := false }
  else s

/-- stopListening (lines 1396-1425): set manual control, deactivate the
conversation, clear the auto-restart timer, stop recognition if
listening, force isListening false and clear the transcript.  (It
touches neither the silence timer nor speechSynthesis.) -/
def stopListening (s : CState) : CState :=
  if s.recAvail then
    let s1 := { s with manuallyControlled := true, conversationActive := false,
                       restartPending := false }
    let s2 := if s1.isListening then recStop s1 else s1
    { s2 with isListening := false, currentTranscript := "" }
  else s

/-- The runtime events that drive the controller. -/
inductive Ev
  | result (interim final : String) (gen : Option String)
  | recEnd
  | speechEnd
  | speechErr
  | settleFire
  | restartFire
  | silenceFire (k : Nat)
  | stopClick
  | startClick
  deriving Repr, DecidableEq

/-- One controller step with its emitted effect list. -/
def stepA (s : CState) : Ev → CState × List Act
  | .result i f g => onresult s i f g
  | .recEnd => (recEndStep s, [])
  | .speechEnd => (speechTermStep s, [])
  | .speechErr => (speechTermStep s, [])
  | .settleFire => (settleFireStep s, [])
  | .restartFire => (restartFireStep s, [])
  | .silenceFire k => (silenceFireStep s k, [])
  | .stopClick => (stopListening s, [])
  | .startClick => (startListening s, [])

/-- One controller step, state only. -/
def step (s : CState) (e : Ev) : CState := (stepA s e).1

/-- Run a sequence of events. -/
def runTrace (s : CState) (evs : List Ev) : CState := evs.foldl step s

/-- The component state after mount and the initial auto-start of
recognition (lines 922-933), with every collaborator available. -/
def initState : CState :=
  { conversationActive := false
    isListening := true
    inputActive := true
    outputActive := false
    manuallyControlled := false
    isProcessing := false
    synthAvail := true
    genAvail := true
    recAvail := true
    currentTranscript := ""
    currentLanguage := .en
    silenceTimer := none
    nextTimerId := 0
    restartPending := false
    settlePending := false
    pendingFinish := false
    messages := []
    spoken := []
    farewellCount := 0 }

/-- A mid-conversation state whose reply utterance is being synthesised
with a completion callback registered. -/
def sSpeaking : CState :=
  { initState with conversationActive := true, isListening := false,
                   inputActive := false, outputActive := true, pendingFinish := true }

/-- A state in which the browser exposes no speechSynthesis. -/
def sNoSynth : CState := { initState with synthAvail := false }

/-- In-memory medication record of the useMedications hook
(src/unnamed/part_000, lines 5-14). -/
structure Medication where
  id : String
  name : String
  time : String
  taken : Bool
  reminderCount : Nat
  specialInstructions : Option String
  dosage : Option String
  frequency : Option Nat
  deriving Repr, DecidableEq

/-- A write against the remote medications table.  Hook functions that
write remotely (addMedication) emit one of these; markMedicationTaken
emits none — its body (lines 109-131) contains no supabase call, only
the local setMedications update and a toast. -/
inductive DbWrite
  | insertRow
  | updateRow
  | deleteRow
  deriving Repr, DecidableEq

/-- The per-entry update inside markMedicationTaken's setMedications
mapper (lines 115-120). -/
def markTakenEntry (medicationId : String) (med : Medication) : Medication :=
  if med.id = medicationId then { med with taken := true, reminderCount := 0 } else med

/-- markMedicationTaken (lines 109-131): map the updater over the
in-memory list; no write to the remote medications table is issued. -/
def markMedicationTaken (meds : List Medication) (medicationId : String) :
    List Medication × List DbWrite :=
  (meds.map (markTakenEntry medicationId), [])

/-- Sample medication entry whose id matches the marked one. -/
def medA : Medication :=
  { id := "a", name := "Aspirin", time := "08:00", taken := false,
    reminderCount := 2, specialInstructions := none, dosage := none, frequency := none }

/-- Sample medication entry whose id does not match. -/
def medB : Medication :=
  { id := "b", name := "Byetta", time := "20:00", taken := false,
    reminderCount := 1, specialInstructions := some "with food",
    dosage := some "10mg", frequency := some 2 }

/-- Sample in-memory medication list. -/
def medsEx : List Medication := [medA, medB]

/-- Index of the first effect satisfying p in an effect list. -/
def firstPos (p : Act → Bool) : List Act → Option Nat
  | [] => none
  | a :: as => if p a then some 0 else (firstPos p as).map (· + 1)

/-- Recognise the stop-recognition effect. -/
def isStopRec : Act → Bool
  | .stopRec => true
  | _ => false

/-- Recognise the conversationActive := true effect. -/
def isSetConvTrue : Act → Bool
  | .setConvActive true => true
  | _ => false

/-- Recognise a speech-synthesis request effect. -/
def isSpeakAct : Act → Bool
  | .speak _ => true
  | _ => false

/-
Concrete scenario: activation by "hello", one emergency conversation
turn ("help"), the reply completing and recognition restarting after the
settle delay, then the 8 s silence timer firing.  Every event is one the
browser runtime delivers in this order: the reply's utterance ends and
the 1 s settle restart runs before the 8 s silence deadline (armed when
the turn's final transcript arrived) elapses.
-/
def c1Events : List Ev :=
  [ .result "hello" "hello" none,
    .recEnd,
    .speechEnd,
    .settleFire,
    .result "help" "help" none,
    .recEnd,
    .speechEnd,
    .settleFire,
    .silenceFire 0 ]

/-- The controller state at the end of that scenario. -/
def c1Final : CState := runTrace initState c1Events

/-- The controller state after the scenario's fifth event: mid
conversation, the emergency reply being spoken, the silence timer armed
with handle 0. -/
def c2State : CState := runTrace initState (c1Events.take 5)

/-- C1: the mutual-exclusion invariant fails on the code: at the end of
the c1Events scenario the farewell requested by endConversation at the
silence timeout is being synthesised while the recognition session is
active — the Speech Input Channel and the Speech Output Channel are
simultaneously active, because endConversation never stops recognition
before speaking. -/
theorem C1_exclusion_violated_at_silence_timeout :
    c1Final.inputActive = true ∧ c1Final.outputActive = true ∧
    c1Final.conversationActive = false ∧ c1Final.farewellCount = 1 := by
  decide

/-- C2 counterexample: stopListening does not leave the controller with
no pending timers and both channels inactive — from the reachable state
c2State (silence timer armed, reply being spoken) it leaves the silence
timer pending and the Output Channel active. -/
theorem C2_stop_leaves_silence_timer_counterexample :
    (stopListening c2State).silenceTimer ≠ none ∧
    (stopListening c2State).outputActive = true := by
  decide

/-- C2 (amended): when the recognition object exists, stopListening from
any state sets the manually-controlled flag, forces conversationActive
and isListening false, clears the transcript, cancels the auto-restart
timer and stops the Input Channel if it was listening; it leaves the
silence timer and the Output Channel untouched. -/
theorem C2_stopListening_postcondition (s : CState) (h : s.recAvail = true) :
    (stopListening s).manuallyControlled = true ∧
    (stopListening s).conversationActive = false ∧
    (stopListening s).isListening = false ∧
    (stopListening s).currentTranscript = "" ∧
    (stopListening s).restartPending = false ∧
    (stopListening s).inputActive = (if s.isListening then false else s.inputActive) ∧
    (stopListening s).silenceTimer = s.silenceTimer ∧
    (stopListening s).outputActive = s.outputActive := by
  unfold stopListening recStop
  by_cases hl : s.isListening <;> simp [h, hl]

/-- C2 witness: the amended postcondition at the initial state. -/
theorem C2_stopListening_postcondition_witness :
    initState.recAvail = true ∧
    ((stopListening initState).manuallyControlled = true ∧
     (stopListening initState).conversationActive = false ∧
     (stopListening initState).isListening = false ∧
     (stopListening initState).currentTranscript = "" ∧
     (stopListening initState).restartPending = false ∧
     (stopListening initState).inputActive =
       (if initState.isListening then false else initState.inputActive) ∧
     (stopListening initState).silenceTimer = initState.silenceTimer ∧
     (stopListening initState).outputActive = initState.outputActive) :=
  ⟨by decide, C2_stopListening_postcondition initState (by decide)⟩

/-- C6: stopListening is idempotent — calling it twice in a row from any
controller state produces exactly the state one call produces (all
fields: flags, transcript, timers, channel activity). -/
theorem C6_stopListening_idempotent (s : CState) :
    stopListening (stopListening s) = stopListening s := by
  unfold stopListening recStop
  by_cases hr : s.recAvail <;> by_cases hl : s.isListening <;> simp [hr, hl]

/-- C3: minimum activation length — for every final transcript whose
lower-cased, trimmed text is shorter than 3 characters, while no
conversation is active, recognition.onresult performs no activation
transition: conversationActive stays false, nothing is added to the
message log, no utterance is synthesised, and the Input Channel is not
stopped. -/
theorem C3_short_transcript_no_activation (s : CState) (i f : String)
    (g : Option String)
    (h1 : s.conversationActive = false)
    (h2 : (trimList (jsLowerList f.data)).length < 3) :
    (step s (.result i f g)).conversationActive = false ∧
    (step s (.result i f g)).spoken = s.spoken ∧
    (step s (.result i f g)).messages = s.messages ∧
    (step s (.result i f g)).inputActive = s.inputActive ∧
    (step s (.result i f g)).outputActive = s.outputActive := by
  simp only [step, stepA, onresult]
  split_ifs <;> simp_all

/-- C3 witness: the final transcript "hi" (length 2) at the initial
state triggers no activation even though the controller is awaiting one. -/
theorem C3_short_transcript_no_activation_witness :
    initState.conversationActive = false ∧
    (trimList (jsLowerList ("hi").data)).length < 3 ∧
    ((step initState (.result "" "hi" none)).conversationActive = false ∧
     (step initState (.result "" "hi" none)).spoken = initState.spoken ∧
     (step initState (.result "" "hi" none)).messages = initState.messages ∧
     (step initState (.result "" "hi" none)).inputActive = initState.inputActive ∧
     (step initState (.result "" "hi" none)).outputActive = initState.outputActive) :=
  ⟨by decide, by decide,
   C3_short_transcript_no_activation initState "" "hi" none (by decide) (by decide)⟩

/-- C4: stop-before-state-change ordering — on every activation match
(no active conversation, nonempty trimmed final transcript of length at
least 3 containing an activation phrase), the effect list emitted by
recognition.onresult places the recognition.stop() effect strictly
before the conversationActive := true effect and strictly before the
greeting speech-synthesis request. -/
theorem C4_stop_precedes_state_change (s : CState) (i f : String)
    (g : Option String)
    (h1 : s.conversationActive = false)
    (h2 : trimList f.data ≠ [])
    (h3 : 3 ≤ (trimList (jsLowerList f.data)).length)
    (h4 : activationPhrases.any
            (fun p => occursIn p.data (trimList (jsLowerList f.data))) = true) :
    ∃ a b c : Nat,
      firstPos isStopRec (stepA s (.result i f g)).2 = some a ∧
      firstPos isSetConvTrue (stepA s (.result i f g)).2 = some b ∧
      firstPos isSpeakAct (stepA s (.result i f g)).2 = some c ∧
      a < b ∧ a < c := by
  simp only [stepA, onresult]
  by_cases hf : f = ""
  · subst hf
    exact absurd rfl h2
  · cases hts : s.silenceTimer with
    | none =>
        refine ⟨0, 1, 4, ?_⟩
        simp_all [firstPos, isStopRec, isSetConvTrue, isSpeakAct, Nat.not_lt.mpr h3]
    | some k =>
        refine ⟨1, 2, 5, ?_⟩
        simp_all [firstPos, isStopRec, isSetConvTrue, isSpeakAct, Nat.not_lt.mpr h3]

/-- C4 witness: the activation transcript "hello" at the initial state. -/
theorem C4_stop_precedes_state_change_witness :
    initState.conversationActive = false ∧
    trimList ("hello").data ≠ [] ∧
    3 ≤ (trimList (jsLowerList ("hello").data)).length ∧
    activationPhrases.any
      (fun p => occursIn p.data (trimList (jsLowerList ("hello").data))) = true ∧
    (∃ a b c : Nat,
      firstPos isStopRec (stepA initState (.result "" "hello" none)).2 = some a ∧
      firstPos isSetConvTrue (stepA initState (.result "" "hello" none)).2 = some b ∧
      firstPos isSpeakAct (stepA initState (.result "" "hello" none)).2 = some c ∧
      a < b ∧ a < c) :=
  ⟨by decide, by decide, by decide, by decide,
   C4_stop_precedes_state_change initState "" "hello" none
     (by decide) (by decide) (by decide) (by decide)⟩

/-- speakResponse leaves the conversation flag, both timers and the
farewell counter unchanged. -/
theorem doSpeak_preserves (s : CState) (text : String) (cb : Bool) :
    (doSpeak s text cb).silenceTimer = s.silenceTimer ∧
    (doSpeak s text cb).nextTimerId = s.nextTimerId ∧
    (doSpeak s text cb).farewellCount = s.farewellCount ∧
    (doSpeak s text cb).conversationActive = s.conversationActive ∧
    (doSpeak s text cb).currentLanguage = s.currentLanguage := by
  unfold doSpeak runFinish
  split_ifs <;> simp

/-- handleConversationInput leaves the silence timer, the timer-id
supply and the farewell counter unchanged. -/
theorem handleConvInput_preserves (s : CState) (t : String) (g : Option String) :
    (handleConvInput s t g).1.silenceTimer = s.silenceTimer ∧
    (handleConvInput s t g).1.nextTimerId = s.nextTimerId ∧
    (handleConvInput s t g).1.farewellCount = s.farewellCount := by
  rcases hb : chooseBranch (analyzeUserInput t (detectLanguage t)) with _ | _ | _ <;>
    rcases hg : g with _ | r <;>
    by_cases hp : s.isProcessing = true <;>
    by_cases hga : s.genAvail = true <;>
    simp [handleConvInput, hb, hg, hp, hga, doSpeak_preserves]

/-- C5: silence-timeout behaviour.  The silence timer is single-shot:
firing its current handle during an active conversation moves the
controller to conversationActive = false with the timer cleared and
exactly one more farewell spoken; firing a stale or cleared handle is a
no-op; no other controller event speaks a farewell; a nonempty final
transcript during a conversation re-arms the deadline with a fresh
handle, and any final transcript invalidates the previously armed
handle. -/
theorem C5_silence_timer (s : CState) (k : Nat) :
    (s.silenceTimer = some k → s.conversationActive = true →
      (step s (.silenceFire k)).conversationActive = false ∧
      (step s (.silenceFire k)).silenceTimer = none ∧
      (step s (.silenceFire k)).farewellCount = s.farewellCount + 1) ∧
    (s.silenceTimer ≠ some k → step s (.silenceFire k) = s) ∧
    ((step s .recEnd).farewellCount = s.farewellCount) ∧
    ((step s .speechEnd).farewellCount = s.farewellCount) ∧
    ((step s .speechErr).farewellCount = s.farewellCount) ∧
    ((step s .settleFire).farewellCount = s.farewellCount) ∧
    ((step s .restartFire).farewellCount = s.farewellCount) ∧
    ((step s .stopClick).farewellCount = s.farewellCount) ∧
    ((step s .startClick).farewellCount = s.farewellCount) ∧
    (∀ i f g, s.conversationActive = true → trimList f.data ≠ [] →
      (step s (.result i f g)).silenceTimer = some s.nextTimerId) ∧
    (∀ i f g, f ≠ "" → s.silenceTimer = some k → k ≠ s.nextTimerId →
      (step s (.result i f g)).silenceTimer ≠ some k) := by
  refine ⟨?_, ?_, ?_, ?_, ?_, ?_, ?_, ?_, ?_, ?_, ?_⟩
  · intro h1 h2
    simp only [step, stepA, silenceFireStep, endConversation, h1, if_pos rfl]
    simp [doSpeak_preserves]
  · intro h1
    simp [step, stepA, silenceFireStep, h1]
  · simp only [step, stepA, recEndStep]
    split_ifs <;> simp
  · simp only [step, stepA, speechTermStep, runFinish]
    split_ifs <;> simp
  · simp only [step, stepA, speechTermStep, runFinish]
    split_ifs <;> simp
  · simp only [step, stepA, settleFireStep, recStart]
    split_ifs <;> simp
  · simp only [step, stepA, restartFireStep, recStart]
    split_ifs <;> simp
  · simp only [step, stepA, stopListening, recStop]
    split_ifs <;> simp
  · simp only [step, stepA, startListening, recStart]
    split_ifs <;> simp
  · intro i f g h1 h2
    by_cases hf : f = ""
    · exact absurd (by subst hf; decide) h2
    · simp only [step, stepA, onresult]
      rcases hts : s.silenceTimer with _ | j <;>
        simp [h1, h2, hts, hf, recStop, (handleConvInput_preserves _ _ _).1,
              (handleConvInput_preserves _ _ _).2.1]
  · intro i f g h1 h2 h3
    simp only [step, stepA, onresult]
    by_cases hca : s.conversationActive = true
    · by_cases htr : trimList f.data = []
      · simp [hca, htr, h1, h2]
      · simp [hca, htr, h1, h2, recStop, (handleConvInput_preserves _ _ _).1,
              (handleConvInput_preserves _ _ _).2.1]
        omega
    · by_cases htr : trimList f.data = []
      · simp [hca, htr, h1, h2]
      · by_cases hlen : (trimList (jsLowerList f.data)).length < 3
        · simp [hca, htr, h1, h2, hlen]
        · by_cases hm : (activationPhrases.any
              (fun p => occursIn p.data (trimList (jsLowerList f.data)))) = true
          · simp [hca, htr, h1, h2, hlen, hm, recStop, doSpeak_preserves]
          · simp [hca, htr, h1, h2, hlen, hm]

/-- C5 witness: with the silence timer armed as handle 0 mid
conversation (state c2State), firing handle 0 ends the conversation with
one more farewell; firing the stale handle 1 is a no-op. -/
theorem C5_silence_timer_witness :
    (c2State.silenceTimer = some 0 ∧ c2State.conversationActive = true ∧
      (step c2State (.silenceFire 0)).conversationActive = false ∧
      (step c2State (.silenceFire 0)).silenceTimer = none ∧
      (step c2State (.silenceFire 0)).farewellCount = c2State.farewellCount + 1) ∧
    (c2State.silenceTimer ≠ some 1 ∧ step c2State (.silenceFire 1) = c2State) :=
  ⟨⟨by decide, by decide,
    (C5_silence_timer c2State 0).1 (by decide) (by decide)⟩,
   ⟨by decide, (C5_silence_timer c2State 1).2.1 (by decide)⟩⟩

/-- handleConversationInput installs the detected language as the
controller's current language on every branch. -/
theorem handleConvInput_lang (s : CState) (t : String) (g : Option String)
    (h : s.isProcessing = false) :
    (handleConvInput s t g).1.currentLanguage = detectLanguage t := by
  rcases hb : chooseBranch (analyzeUserInput t (detectLanguage t)) with _ | _ | _ <;>
    rcases hg : g with _ | r <;>
    by_cases hga : s.genAvail = true <;>
    simp [handleConvInput, hb, hg, h, hga, doSpeak_preserves]

/-- C7: analyzeUserInput is a pure function of (transcript, language):
its confidence is the fixed constant 0.8, its two flags are
case-insensitive substring membership of the transcript against the
fixed per-language emergency and health keyword lists, and whenever the
emergency flag is set the dispatch of handleConversationInput takes the
emergency branch — emergency takes priority over health-concern on
overlap. -/
theorem C7_classifier_correct (t : String) (l : Lang) :
    (analyzeUserInput t l).confidence = 0.8 ∧
    ((analyzeUserInput t l).isEmergency =
      (emergencyKeywords l).any
        (fun k => occursIn (jsLowerList k.data) (jsLowerList t.data))) ∧
    ((analyzeUserInput t l).isHealthConcern =
      (healthKeywords l).any
        (fun k => occursIn (jsLowerList k.data) (jsLowerList t.data))) ∧
    ((analyzeUserInput t l).isEmergency = true →
      chooseBranch (analyzeUserInput t l) = ConvBranch.emergency) := by
  refine ⟨rfl, rfl, rfl, ?_⟩
  intro h
  simp [chooseBranch, h]

/-- C7 witness: "help me I am sick" matches both an emergency keyword
and a health keyword, and the emergency branch is taken. -/
theorem C7_classifier_correct_witness :
    (analyzeUserInput "help me I am sick" .en).isEmergency = true ∧
    (analyzeUserInput "help me I am sick" .en).isHealthConcern = true ∧
    chooseBranch (analyzeUserInput "help me I am sick" .en) = ConvBranch.emergency :=
  ⟨by decide, by decide,
   (C7_classifier_correct "help me I am sick" .en).2.2.2 (by decide)⟩

/-- C8: every speakResponse invocation reaches its completion callback
on a terminal synthesis event.  With synthesis available the utterance
starts with the callback registered, and both terminal events —
utterance end and utterance error — leave the Output Channel inactive
and invoke the callback (arming the settle-delay restart); without
synthesis the callback is invoked immediately.  The machine is never
left with the Output Channel active after a terminal event. -/
theorem C8_completion_always_fires (s : CState) (text : String) :
    (s.synthAvail = true →
      (doSpeak s text true).outputActive = true ∧
      (doSpeak s text true).pendingFinish = true) ∧
    (s.synthAvail = false →
      (doSpeak s text true).settlePending = true ∧
      (doSpeak s text true).outputActive = s.outputActive) ∧
    (s.outputActive = true → s.pendingFinish = true →
      (step s .speechEnd).settlePending = true ∧
      (step s .speechEnd).outputActive = false ∧
      (step s .speechEnd).pendingFinish = false) ∧
    (s.outputActive = true → s.pendingFinish = true →
      (step s .speechErr).settlePending = true ∧
      (step s .speechErr).outputActive = false ∧
      (step s .speechErr).pendingFinish = false) := by
  refine ⟨?_, ?_, ?_, ?_⟩
  · intro h
    simp [doSpeak, h]
  · intro h
    simp [doSpeak, runFinish, h]
  · intro h1 h2
    simp [step, stepA, speechTermStep, runFinish, h1, h2]
  · intro h1 h2
    simp [step, stepA, speechTermStep, runFinish, h1, h2]

/-- C8 witness: a speaking state with a registered callback recovers on
both terminal events, and a no-synthesis call fires the callback at
once. -/
theorem C8_completion_always_fires_witness :
    ((step sSpeaking .speechEnd).settlePending = true ∧
     (step sSpeaking .speechEnd).outputActive = false ∧
     (step sSpeaking .speechEnd).pendingFinish = false) ∧
    ((step sSpeaking .speechErr).settlePending = true ∧
     (step sSpeaking .speechErr).outputActive = false ∧
     (step sSpeaking .speechErr).pendingFinish = false) ∧
    ((doSpeak sNoSynth "hi" true).settlePending = true ∧
     (doSpeak sNoSynth "hi" true).outputActive = sNoSynth.outputActive) :=
  ⟨(C8_completion_always_fires sSpeaking "hi").2.2.1 (by decide) (by decide),
   (C8_completion_always_fires sSpeaking "hi").2.2.2 (by decide) (by decide),
   (C8_completion_always_fires sNoSynth "hi").2.1 (by decide)⟩

/-- C9: detectLanguage is total and deterministic, returning ml exactly
when the text contains a code point in the Malayalam block
U+0D00-U+0D7F and en otherwise, and handleConversationInput installs
that detected value as the language used for the turn (keyword lists
and response language). -/
theorem C9_detect_language (t : String) :
    (detectLanguage t = Lang.ml ↔
      ∃ c ∈ t.data, 0xD00 ≤ c.toNat ∧ c.toNat ≤ 0xD7F) ∧
    (detectLanguage t = Lang.en ↔
      ¬ ∃ c ∈ t.data, 0xD00 ≤ c.toNat ∧ c.toNat ≤ 0xD7F) ∧
    (∀ (s : CState) (g : Option String), s.isProcessing = false →
      (handleConvInput s t g).1.currentLanguage = detectLanguage t) := by
  refine ⟨?_, ?_, fun s g h => handleConvInput_lang s t g h⟩
  · rw [detectLanguage]
    split_ifs with h <;> simp_all [List.any_eq_true]
  · rw [detectLanguage]
    split_ifs with h <;> simp_all [List.any_eq_true]

/-- C9 witness: an ASCII transcript detects as en and that value is the
language handleConversationInput installs. -/
theorem C9_detect_language_witness :
    initState.isProcessing = false ∧
    (handleConvInput initState "help" none).1.currentLanguage = detectLanguage "help" :=
  ⟨by decide, (C9_detect_language "help").2.2 initState none (by decide)⟩

/-- C10: frame property of markMedicationTaken — it issues no write to
the remote medications table, preserves the length and order of the
in-memory list, rewrites each entry whose id matches (taken := true,
reminderCount := 0, all other fields kept), and leaves every other entry
exactly unchanged. -/
theorem C10_mark_taken_frame (meds : List Medication) (mid : String) :
    (markMedicationTaken meds mid).2 = [] ∧
    (markMedicationTaken meds mid).1.length = meds.length ∧
    (∀ (j : Nat) (m : Medication), meds[j]? = some m →
      (markMedicationTaken meds mid).1[j]? =
        some (if m.id = mid then { m with taken := true, reminderCount := 0 }
              else m)) := by
  refine ⟨rfl, by simp [markMedicationTaken], ?_⟩
  intro j m hm
  simp [markMedicationTaken, hm, markTakenEntry]

/-- C10 witness: marking "a" in the sample list updates the matching
entry in place, leaves the other entry untouched, and issues no
database write. -/
theorem C10_mark_taken_frame_witness :
    (markMedicationTaken medsEx "a").2 = [] ∧
    medsEx[0]? = some medA ∧
    (markMedicationTaken medsEx "a").1[0]? =
      some (if medA.id = "a" then { medA with taken := true, reminderCount := 0 }
            else medA) ∧
    medsEx[1]? = some medB ∧
    (markMedicationTaken medsEx "a").1[1]? =
      some (if medB.id = "a" then { medB with taken := true, reminderCount := 0 }
            else medB) :=
  ⟨(C10_mark_taken_frame medsEx "a").1, by decide,
   (C10_mark_taken_frame medsEx "a").2.2 0 medA (by decide), by decide,
   (C10_mark_taken_frame medsEx "a").2.2 1 medB (by decide)⟩

end EdenVoice
